import Mathlib

/-!
Shallow embedding of the delivery-route optimizer
(src/delivery_optimizer/{config,main,optimizer,data_utils}.py).

Python floats are modelled as exact rationals (the values the claims touch
are small integers and halves, for which IEEE double arithmetic is exact),
except where an infinity can occur: there a dedicated `PyFloat` type with an
`inf` point is used, and Python's `int(...)` conversion is modelled as a
fallible operation that fails on non-finite input, exactly as CPython's
`int(float('inf'))` raises OverflowError.
-/

namespace DeliveryOptimizer

/-! ## config.py -/

/-- Cost weight on travel time, config.py WEIGHT_TIME = 1.0. -/
def WEIGHT_TIME : ℚ := 1

/-- Cost weight on distance (fuel proxy), config.py WEIGHT_FUEL = 0.5. -/
def WEIGHT_FUEL : ℚ := 1/2

/-- Penalty weight on priority, config.py WEIGHT_PRIORITY = 100.0. -/
def WEIGHT_PRIORITY : ℚ := 100

/-- config.py VEHICLE_CAPACITY = 40. -/
def VEHICLE_CAPACITY : ℤ := 40

/-- config.py NUM_VEHICLES = 1. -/
def NUM_VEHICLES : ℕ := 1

/-- config.py DEPOT_INDEX = 0. -/
def DEPOT_INDEX : ℕ := 0

/-- config.py REOPTIMIZATION_VARIANCE_THRESHOLD = 0.15. -/
def REOPTIMIZATION_VARIANCE_THRESHOLD : ℚ := 15/100

/-- config.py FALLBACK_SPEED_KMH = 30.0. -/
def FALLBACK_SPEED_KMH : ℚ := 30

/-! ## Python float values with infinity, and Python int() truncation

The matrices handed to the optimizer may contain `float('inf')`
(data_utils.get_tomtom_matrix writes it into a cell whose TomTom response
has no routeSummary).  Arithmetic on such values follows IEEE semantics;
`int(x)` truncates a finite float toward zero and raises OverflowError on
an infinity (ValueError on a NaN). -/

/-- Python float value as it occurs in the matrices: a finite rational,
positive infinity, or NaN (NaN can only arise here as inf * 0). -/
inductive PyFloat where
  | finite (q : ℚ)
  | inf
  | nan
deriving DecidableEq, Repr

/-- IEEE addition restricted to the values occurring here (no negative
infinity is ever produced by the program). -/
def PyFloat.add : PyFloat → PyFloat → PyFloat
  | .finite a, .finite b => .finite (a + b)
  | .nan, _ => .nan
  | _, .nan => .nan
  | .inf, _ => .inf
  | _, .inf => .inf

/-- IEEE multiplication of a float by a finite constant (the weights):
inf * 0 is NaN, inf * nonzero is inf. -/
def PyFloat.mulConst : PyFloat → ℚ → PyFloat
  | .finite a, w => .finite (a * w)
  | .inf, w => if w = 0 then .nan else .inf
  | .nan, _ => .nan

/-- Truncation of a rational toward zero, the behaviour of Python int()
on a finite float. -/
def ratTrunc (q : ℚ) : ℤ :=
  if q < 0 then -(Int.floor (-q)) else Int.floor q

/-- Python int() on a float: truncates a finite value toward zero, raises
OverflowError on an infinity and ValueError on NaN. -/
def pyInt : PyFloat → Except String ℤ
  | .finite q => .ok (ratTrunc q)
  | .inf => .error "OverflowError"
  | .nan => .error "ValueError"

/-! ## main.py : check_reoptimization

The Python body is
  if predicted_eta == 0: return False
  variance = abs(current_eta - predicted_eta) / predicted_eta
  return variance > config.REOPTIMIZATION_VARIANCE_THRESHOLD
The division is made explicit through `pyDiv`, which fails on a zero
divisor the way Python division raises ZeroDivisionError, so that totality
of the guarded function is a real statement rather than a typing accident. -/

/-- Python division on rationals: fails (ZeroDivisionError) on a zero divisor. -/
def pyDiv (a b : ℚ) : Option ℚ :=
  if b = 0 then none else some (a / b)

/-- main.py check_reoptimization, with the division explicit: returns
`some decision` when no exception occurs, `none` if a division by zero
would have been executed. -/
def check_reoptimization (current_eta predicted_eta : ℚ) : Option Bool :=
  if predicted_eta = 0 then some false
  else
    (pyDiv |current_eta - predicted_eta| predicted_eta).map
      (fun variance => decide (variance > REOPTIMIZATION_VARIANCE_THRESHOLD))

/-! ## optimizer.py : RouteOptimizer construction

The constructor stores the node table and the two matrices unchanged; its
body contains no validation and no operation that can raise.  The node
table keeps the columns the optimizer reads: demand and priority. -/

/-- One row of the df_data node table: the columns RouteOptimizer reads. -/
structure NodeRow where
  demand : ℤ
  priority : ℤ
deriving DecidableEq, Repr

/-- State of a RouteOptimizer right after construction. -/
structure RouteOptimizer where
  df : List NodeRow
  dist_matrix : List (List PyFloat)
  time_matrix : List (List PyFloat)
deriving DecidableEq, Repr

/-- optimizer.py RouteOptimizer.__init__: stores the three inputs and
initializes manager/routing/solution to None.  The body performs no check,
so the embedding is total and always succeeds. -/
def RouteOptimizer.init (df_data : List NodeRow)
    (dist_matrix time_matrix : List (List PyFloat)) :
    Except String RouteOptimizer :=
  .ok ⟨df_data, dist_matrix, time_matrix⟩

/-! ## optimizer.py : transit callbacks (solve, steps 3) -/

/-- optimizer.py time_callback: int(time_matrix[from_node][to_node]).
Fails with OverflowError when the entry is infinite. -/
def time_callback (tm : ℕ → ℕ → PyFloat) (from_node to_node : ℕ) :
    Except String ℤ :=
  pyInt (tm from_node to_node)

/-- optimizer.py cost_callback:
int(time_matrix[i][j] * WEIGHT_TIME + dist_matrix[i][j] * WEIGHT_FUEL).
Fails with OverflowError when either entry is infinite. -/
def cost_callback (tm dm : ℕ → ℕ → PyFloat) (from_node to_node : ℕ) :
    Except String ℤ :=
  pyInt (((tm from_node to_node).mulConst WEIGHT_TIME).add
         ((dm from_node to_node).mulConst WEIGHT_FUEL))

/-! ## optimizer.py : dimensions, time windows and disjunctions (solve, steps 4-5) -/

/-- Arguments of a routing-dimension registration call. -/
structure DimensionArgs where
  slack_max : ℕ
  capacity : ℕ
  fix_start_cumul_to_zero : Bool
  name : String
deriving DecidableEq, Repr

/-- optimizer.py solve, Time dimension:
AddDimension(transit_callback_index, 30*60, 24*60*60, False, "Time"). -/
def timeDimensionArgs : DimensionArgs :=
  { slack_max := 30 * 60
    capacity := 24 * 60 * 60
    fix_start_cumul_to_zero := false
    name := "Time" }

/-- optimizer.py solve, Capacity dimension: AddDimensionWithVehicleCapacity
(demand callback, slack 0, [VEHICLE_CAPACITY] * NUM_VEHICLES, start cumul
forced to zero). -/
def capacityDimensionArgs : DimensionArgs :=
  { slack_max := 0
    capacity := 40
    fix_start_cumul_to_zero := true
    name := "Capacity" }

/-- optimizer.py solve, time-window loop: the SetRange(start, end) calls it
issues, one triple (node, start, end) per non-depot node; the depot (i = 0)
is skipped by the continue, and the bounds are the hardcoded mock windows
chosen by index parity. -/
def windowSetRangeCalls (num_locations : ℕ) : List (ℕ × ℕ × ℕ) :=
  (List.range num_locations).filterMap (fun i =>
    if i = 0 then none
    else if i % 2 = 0 then some (i, 1800, 14400)
    else some (i, 3600, 21600))

/-- optimizer.py solve, penalty loop: penalty_base = 100000. -/
def penalty_base : ℤ := 100000

/-- optimizer.py solve, penalty loop: the AddDisjunction([index], penalty)
calls it issues, one pair (node, penalty) per non-depot node, with
penalty = int(config.WEIGHT_PRIORITY * row.priority * penalty_base); the
depot (i = 0) is skipped by the continue.  (The code passes the node
through manager.NodeToIndex before the call; the pair records the node.) -/
def disjunctionCalls (df : List NodeRow) : List (ℕ × ℤ) :=
  (List.range df.length).filterMap (fun i =>
    if i = 0 then none
    else some (i, ratTrunc (WEIGHT_PRIORITY * ((df.getD i ⟨0, 0⟩).priority : ℚ)
                              * (penalty_base : ℚ))))

/-! ## optimizer.py : print_solution and the routing index layout

The solver object is OR-Tools; the index layout of its
RoutingIndexManager(n, 1 vehicle, depot 0) is: the non-depot nodes
1..n-1 take routing indices 0..n-2 in ascending node order, then the
vehicle start gets index n-1 and the vehicle end index n; Size() counts
the next-variables, i.e. all indices except the end, which is n.  A
solution assigns each routing index its successor index (next); an index
left out of every route has next idx = idx, the convention
print_solution's dropped-node scan itself relies on. -/

/-- RoutingIndexManager.IndexToNode for n locations, 1 vehicle, depot 0:
indices 0..n-2 are nodes 1..n-1, the start (n-1) and end (n) map to the
depot node 0. -/
def indexToNode (n idx : ℕ) : ℕ :=
  if idx < n - 1 then idx + 1 else 0

/-- RoutingIndexManager.NodeToIndex for a non-depot node i: i - 1. -/
def nodeToIndex (i : ℕ) : ℕ := i - 1

/-- RoutingModel.IsStart: the single vehicle starts at index n - 1. -/
def isStart (n idx : ℕ) : Bool := idx = n - 1

/-- RoutingModel.IsEnd: the single vehicle ends at index n. -/
def isEnd (n idx : ℕ) : Bool := idx = n

/-- RoutingModel.Size(): the number of next-variables, n. -/
def routingSize (n : ℕ) : ℕ := n

/-- optimizer.py print_solution, dropped-node scan: collects every routing
index below Size() that is neither a start nor an end and is its own
successor.  The code appends the routing index itself, without an
IndexToNode conversion. -/
def droppedNodesReport (n : ℕ) (next : ℕ → ℕ) : List ℕ :=
  (List.range (routingSize n)).filter (fun idx =>
    !(isStart n idx) && !(isEnd n idx) && (next idx == idx))

/-- optimizer.py print_solution, route walk from a routing index: follows
next until IsEnd, appending IndexToNode of each index visited, then
appends IndexToNode of the end index.  The fuel argument bounds the walk
(the while loop terminates because an OR-Tools route reaches the end). -/
def routeWalk (n : ℕ) (next : ℕ → ℕ) : ℕ → ℕ → List ℕ
  | 0, idx => [indexToNode n idx]
  | fuel + 1, idx =>
    if isEnd n idx then [indexToNode n idx]
    else indexToNode n idx :: routeWalk n next fuel (next idx)

/-- optimizer.py print_solution, route sequence of the single vehicle:
the walk starting at Start(0) = index n - 1. -/
def routeSequenceReport (n : ℕ) (next : ℕ → ℕ) : List ℕ :=
  routeWalk n next (n + 1) (n - 1)

/-! ## data_utils.py : haversine_distance and the fallback matrices

These compute with math.sin/cos/asin/sqrt, so they are embedded over the
real numbers. -/

/-- data_utils.py haversine_distance: great-circle distance in meters
between two points given in decimal degrees. -/
noncomputable def haversine_distance (lat1 lon1 lat2 lon2 : ℝ) : ℝ :=
  let lon1r := lon1 * (Real.pi / 180)
  let lat1r := lat1 * (Real.pi / 180)
  let lon2r := lon2 * (Real.pi / 180)
  let lat2r := lat2 * (Real.pi / 180)
  let dlon := lon2r - lon1r
  let dlat := lat2r - lat1r
  let a := Real.sin (dlat / 2) ^ 2 +
    Real.cos lat1r * Real.cos lat2r * Real.sin (dlon / 2) ^ 2
  let c := 2 * Real.arcsin (Real.sqrt a)
  c * 6371 * 1000

/-- data_utils.py get_tomtom_matrix, fallback branch: the constant speed
in meters per second, FALLBACK_SPEED_KMH * 1000 / 3600. -/
noncomputable def speed_mps : ℝ := (FALLBACK_SPEED_KMH : ℝ) * 1000 / 3600

/-- data_utils.py get_tomtom_matrix, fallback branch: distance matrix
entry (i, j) over the coordinate table; zero on the diagonal, haversine
distance elsewhere. -/
noncomputable def fallbackDistMatrix (coords : ℕ → ℝ × ℝ) (i j : ℕ) : ℝ :=
  if i = j then 0
  else haversine_distance (coords i).1 (coords i).2 (coords j).1 (coords j).2

/-- data_utils.py get_tomtom_matrix, fallback branch: time matrix entry
(i, j); zero on the diagonal, distance divided by speed_mps elsewhere. -/
noncomputable def fallbackTimeMatrix (coords : ℕ → ℝ × ℝ) (i j : ℕ) : ℝ :=
  if i = j then 0
  else haversine_distance (coords i).1 (coords i).2 (coords j).1 (coords j).2
        / speed_mps

/-! ## Helper lemmas -/

/-- Truncation of an integer-valued rational is the integer itself. -/
theorem ratTrunc_intCast (z : ℤ) : ratTrunc (z : ℚ) = z := by
  unfold ratTrunc
  by_cases h : (z : ℚ) < 0
  · rw [if_pos h, ← Int.cast_neg, Int.floor_intCast, neg_neg]
  · rw [if_neg h, Int.floor_intCast]

/-- Membership in the SetRange call list of the time-window loop:
exactly the non-depot nodes below the location count, with the parity
windows. -/
theorem mem_windowSetRangeCalls_iff (n i lo hi : ℕ) :
    (i, lo, hi) ∈ windowSetRangeCalls n ↔
      i < n ∧ i ≠ 0 ∧
        ((i % 2 = 0 ∧ lo = 1800 ∧ hi = 14400) ∨
         (i % 2 = 1 ∧ lo = 3600 ∧ hi = 21600)) := by
  unfold windowSetRangeCalls
  rw [List.mem_filterMap]
  constructor
  · rintro ⟨a, ha, hfa⟩
    rw [List.mem_range] at ha
    by_cases h0 : a = 0
    · simp [h0] at hfa
    · rw [if_neg h0] at hfa
      by_cases h2 : a % 2 = 0
      · rw [if_pos h2] at hfa
        obtain ⟨rfl, rfl, rfl⟩ :=
          Prod.mk.injEq .. ▸ Option.some.inj hfa
        exact ⟨ha, h0, Or.inl ⟨h2, rfl, rfl⟩⟩
      · rw [if_neg h2] at hfa
        obtain ⟨rfl, rfl, rfl⟩ :=
          Prod.mk.injEq .. ▸ Option.some.inj hfa
        exact ⟨ha, h0, Or.inr ⟨Nat.mod_two_eq_zero_or_one a |>.resolve_left h2,
          rfl, rfl⟩⟩
  · rintro ⟨hn, h0, ⟨he, rfl, rfl⟩ | ⟨ho, rfl, rfl⟩⟩
    · exact ⟨i, List.mem_range.mpr hn, by rw [if_neg h0, if_pos he]⟩
    · refine ⟨i, List.mem_range.mpr hn, ?_⟩
      rw [if_neg h0, if_neg (by rw [ho]; exact one_ne_zero)]

/-- Squared sine is unchanged when the difference under it is reversed. -/
theorem sin_sq_half_sub_comm (x y : ℝ) :
    Real.sin ((x - y) / 2) ^ 2 = Real.sin ((y - x) / 2) ^ 2 := by
  rw [show (x - y) / 2 = -((y - x) / 2) by ring, Real.sin_neg, neg_sq]

/-- Swapping the two coordinate pairs does not change the haversine
distance. -/
theorem haversine_distance_symm (lat1 lon1 lat2 lon2 : ℝ) :
    haversine_distance lat1 lon1 lat2 lon2
      = haversine_distance lat2 lon2 lat1 lon1 := by
  simp only [haversine_distance]
  rw [sin_sq_half_sub_comm (lat1 * (Real.pi / 180)) (lat2 * (Real.pi / 180)),
    sin_sq_half_sub_comm (lon1 * (Real.pi / 180)) (lon2 * (Real.pi / 180)),
    mul_comm (Real.cos (lat2 * (Real.pi / 180)))
      (Real.cos (lat1 * (Real.pi / 180)))]

/-- The haversine distance is non-negative. -/
theorem haversine_distance_nonneg (lat1 lon1 lat2 lon2 : ℝ) :
    0 ≤ haversine_distance lat1 lon1 lat2 lon2 := by
  simp only [haversine_distance]
  refine mul_nonneg (mul_nonneg ?_ (by norm_num)) (by norm_num)
  have h := Real.arcsin_nonneg.mpr (Real.sqrt_nonneg
    (Real.sin ((lat2 * (Real.pi / 180) - lat1 * (Real.pi / 180)) / 2) ^ 2 +
      Real.cos (lat1 * (Real.pi / 180)) * Real.cos (lat2 * (Real.pi / 180)) *
        Real.sin ((lon2 * (Real.pi / 180) - lon1 * (Real.pi / 180)) / 2) ^ 2))
  linarith

/-! ## Theorems for the claims -/

/-- C1: the partition invariant fails as reported: on the two-location
instance whose single stop (node 1) is dropped (its demand exceeds the
vehicle capacity, so the unique solution has next = identity on node 1's
routing index 0 and sends the vehicle start straight to its end),
print_solution reports the route [0, 0] and the dropped list [0]: the
non-depot node 1 appears in neither the route nor the dropped list, because
the dropped scan appends the raw routing index (node - 1) instead of
converting it with IndexToNode (the conversion, applied in the last
conjunct, would have reported [1]). -/
theorem C1_dropped_report_is_routing_index :
    droppedNodesReport 2 (fun idx => if idx = 1 then 2 else idx) = [0] ∧
    routeSequenceReport 2 (fun idx => if idx = 1 then 2 else idx) = [0, 0] ∧
    1 ∉ droppedNodesReport 2 (fun idx => if idx = 1 then 2 else idx) ∧
    1 ∉ routeSequenceReport 2 (fun idx => if idx = 1 then 2 else idx) ∧
    (droppedNodesReport 2 (fun idx => if idx = 1 then 2 else idx)).map
        (indexToNode 2) = [1] := by
  exact ⟨rfl, rfl, by decide, by decide, rfl⟩

/-- C2: an infinite matrix entry is an error after all: both registered
transit callbacks call Python int() on the entry, and int(float('inf'))
raises OverflowError, so the arc is not silently excluded — evaluating the
arc cost of a forbidden arc raises. -/
theorem C2_infinite_entry_raises :
    cost_callback (fun _ _ => PyFloat.inf) (fun _ _ => PyFloat.finite 0) 0 1
        = .error "OverflowError" ∧
    time_callback (fun _ _ => PyFloat.inf) 0 1 = .error "OverflowError" := by
  exact ⟨rfl, rfl⟩

/-- C3 counterexample: a malformed input — a two-row node table with a
1 x 1 distance matrix (mismatched with the table) holding a negative
finite entry — is accepted by RouteOptimizer construction, which returns
the optimizer object instead of failing with MalformedInput. -/
theorem C3_counterexample_malformed_accepted :
    RouteOptimizer.init [⟨0, 1⟩, ⟨2, 1⟩] [[.finite (-3)]] [[.finite 0]]
        ≠ Except.error "MalformedInput" ∧
    RouteOptimizer.init [⟨0, 1⟩, ⟨2, 1⟩] [[.finite (-3)]] [[.finite 0]]
        = .ok ⟨[⟨0, 1⟩, ⟨2, 1⟩], [[.finite (-3)]], [[.finite 0]]⟩ := by
  refine ⟨?_, rfl⟩
  intro h
  simp [RouteOptimizer.init] at h

/-- C3 amended: optimizer construction performs no input validation at
all: for every node table and every pair of matrices, square or not,
matching the table or not, with negative finite entries or not,
RouteOptimizer.__init__ returns the object storing the inputs unchanged
and never raises any error, MalformedInput included. -/
theorem C3_init_performs_no_validation (df : List NodeRow)
    (dm tm : List (List PyFloat)) :
    RouteOptimizer.init df dm tm = .ok ⟨df, dm, tm⟩ ∧
    ∀ e : String, RouteOptimizer.init df dm tm ≠ Except.error e := by
  refine ⟨rfl, fun e h => ?_⟩
  simp [RouteOptimizer.init] at h

/-- C4 counterexample: the input node table carries no window column at
all (its columns are id, demand, priority), yet on the two-location
instance the solver's window loop constrains node 1's cumulative time to
the hardcoded range [3600, 21600]: a node the input gives no window is
not left unconstrained, and the window does not come from the input. -/
theorem C4_counterexample_window_hardcoded :
    windowSetRangeCalls 2 = [(1, 3600, 21600)] ∧
    windowSetRangeCalls 2 ≠ [] := by
  refine ⟨rfl, ?_⟩
  intro h
  simp [windowSetRangeCalls, List.range_succ] at h

/-- C4 amended: the solver ignores the input table for time windows (the
table has no window data) and instead constrains every non-depot node with
a hardcoded mock window chosen by index parity: even-index nodes get
[1800, 14400] and odd-index nodes get [3600, 21600]; only the depot is
left unconstrained by the loop. -/
theorem C4_windows_hardcoded_by_parity (n i lo hi : ℕ) :
    (i, lo, hi) ∈ windowSetRangeCalls n ↔
      i < n ∧ i ≠ 0 ∧
        ((i % 2 = 0 ∧ lo = 1800 ∧ hi = 14400) ∨
         (i % 2 = 1 ∧ lo = 3600 ∧ hi = 21600)) :=
  mem_windowSetRangeCalls_iff n i lo hi

/-- C5: every non-depot node i of the table receives a disjunction whose
penalty is exactly WEIGHT_PRIORITY * priority(i) * penalty_base (the
float product is an exact integer, so Python int() leaves it unchanged),
and no disjunction is ever added for the depot. -/
theorem C5_drop_penalty (df : List NodeRow) (i : ℕ)
    (h0 : i ≠ 0) (hn : i < df.length) :
    (i, 100 * (df.getD i ⟨0, 0⟩).priority * 100000) ∈ disjunctionCalls df ∧
    ∀ p ∈ disjunctionCalls df, p.1 ≠ 0 := by
  constructor
  · unfold disjunctionCalls
    rw [List.mem_filterMap]
    refine ⟨i, List.mem_range.mpr hn, ?_⟩
    rw [if_neg h0]
    congr 1
    have : WEIGHT_PRIORITY * ((df.getD i ⟨0, 0⟩).priority : ℚ)
        * (penalty_base : ℚ)
        = ((100 * (df.getD i ⟨0, 0⟩).priority * 100000 : ℤ) : ℚ) := by
      unfold WEIGHT_PRIORITY penalty_base
      push_cast
      ring
    rw [this, ratTrunc_intCast]
  · intro p hp
    unfold disjunctionCalls at hp
    rw [List.mem_filterMap] at hp
    obtain ⟨a, -, hfa⟩ := hp
    by_cases ha : a = 0
    · simp [ha] at hfa
    · rw [if_neg ha] at hfa
      obtain rfl := Option.some.inj hfa
      exact ha

/-- Witness for C5 on the concrete table [depot, stop of priority 2]: the
stop, node 1, gets the disjunction penalty 100 * 2 * 100000, and no
disjunction call names the depot. -/
theorem C5_drop_penalty_witness :
    ((1 : ℕ), 100 * (([⟨0, 0⟩, ⟨3, 2⟩] : List NodeRow).getD 1 ⟨0, 0⟩).priority
        * 100000) ∈ disjunctionCalls [⟨0, 0⟩, ⟨3, 2⟩] ∧
    ∀ p ∈ disjunctionCalls [⟨0, 0⟩, ⟨3, 2⟩], p.1 ≠ 0 :=
  C5_drop_penalty [⟨0, 0⟩, ⟨3, 2⟩] 1 (by decide) (by decide)

/-- C6 counterexample: at time(0,1) = 1 and dist(0,1) = 1 the solver's arc
cost is the integer 1, but time * WEIGHT_TIME + dist * WEIGHT_FUEL is 3/2:
the int() conversion truncates, so the arc cost is not exactly the
weighted sum. -/
theorem C6_counterexample_cost_truncated :
    cost_callback (fun _ _ => PyFloat.finite 1) (fun _ _ => PyFloat.finite 1)
        0 1 = .ok 1 ∧
    (1 : ℚ) * WEIGHT_TIME + (1 : ℚ) * WEIGHT_FUEL ≠ ((1 : ℤ) : ℚ) := by
  constructor
  · show Except.ok (ratTrunc (1 * WEIGHT_TIME + 1 * WEIGHT_FUEL)) = Except.ok 1
    congr 1
    unfold WEIGHT_TIME WEIGHT_FUEL ratTrunc
    rw [if_neg (by norm_num), show (1 : ℚ) * 1 + 1 * (1/2) = 3/2 by norm_num,
      Int.floor_eq_iff]
    all_goals norm_num
  · unfold WEIGHT_TIME WEIGHT_FUEL
    norm_num

/-- C6 amended: for finite matrix entries the arc cost is the weighted sum
time(i,j) * WEIGHT_TIME + dist(i,j) * WEIGHT_FUEL truncated toward zero to
an integer by Python int(), as OR-Tools arc costs must be integers; apart
from this truncation there is no normalization. -/
theorem C6_cost_is_truncated_weighted_sum (tm dm : ℕ → ℕ → ℚ) (i j : ℕ) :
    cost_callback (fun a b => .finite (tm a b)) (fun a b => .finite (dm a b))
        i j
      = .ok (ratTrunc (tm i j * WEIGHT_TIME + dm i j * WEIGHT_FUEL)) :=
  rfl

/-- C7 counterexample: the Time dimension is registered with slack 1800
and horizon capacity 86400 as claimed, but its fix-start-cumul-to-zero
argument is False: the depot's cumulative time is not fixed to 0 at route
start. -/
theorem C7_counterexample_start_cumul_not_fixed :
    timeDimensionArgs.slack_max = 1800 ∧
    timeDimensionArgs.capacity = 86400 ∧
    timeDimensionArgs.fix_start_cumul_to_zero ≠ true := by
  refine ⟨rfl, rfl, ?_⟩
  intro h
  simp [timeDimensionArgs] at h

/-- C7 amended: the Time dimension allows waiting slack of at most 1800
seconds, caps every cumulative-time variable (route start and end
included) at the 86400-second horizon, does not fix the start cumul to
zero (the flag passed is False), and applies no SetRange to the depot: the
window loop only ever constrains non-depot nodes. -/
theorem C7_time_dimension_config :
    timeDimensionArgs =
      { slack_max := 30 * 60, capacity := 24 * 60 * 60,
        fix_start_cumul_to_zero := false, name := "Time" } ∧
    ∀ n : ℕ, ∀ t ∈ windowSetRangeCalls n, t.1 ≠ 0 := by
  refine ⟨rfl, fun n t ht => ?_⟩
  obtain ⟨i, lo, hi⟩ := t
  exact ((mem_windowSetRangeCalls_iff n i lo hi).mp ht).2.1

/-- C8: for every predicted route time p ≠ 0 and observed ETA o, the
re-optimization check signals re-invocation exactly when |o - p| / p is
strictly greater than the threshold 0.15; a deviation of exactly 15 percent
(or less) does not trigger it. -/
theorem C8_reoptimization_strict_threshold (o p : ℚ) (hp : p ≠ 0) :
    (check_reoptimization o p = some true ↔ |o - p| / p > 15/100) ∧
    (|o - p| / p = 15/100 → check_reoptimization o p = some false) := by
  unfold check_reoptimization pyDiv REOPTIMIZATION_VARIANCE_THRESHOLD
  rw [if_neg hp, if_neg hp]
  constructor
  · simp [Option.map_some]
  · intro h
    simp [Option.map_some, h]

/-- Witness for C8 at the concrete pair o = 2, p = 1 (deviation 100 percent,
strictly above the threshold, so the check fires). -/
theorem C8_reoptimization_strict_threshold_witness :
    (check_reoptimization 2 1 = some true ↔ |(2 : ℚ) - 1| / 1 > 15/100) ∧
    (|(2 : ℚ) - 1| / 1 = 15/100 → check_reoptimization 2 1 = some false) :=
  C8_reoptimization_strict_threshold 2 1 (by norm_num)

/-- C9: check_reoptimization is total: it never actually divides by zero,
and at predicted ETA 0 it returns false without evaluating the quotient. -/
theorem C9_reoptimization_total (o p : ℚ) :
    (check_reoptimization o p).isSome = true ∧
    check_reoptimization o 0 = some false := by
  constructor
  · unfold check_reoptimization pyDiv
    by_cases hp : p = 0 <;> simp [hp]
  · simp [check_reoptimization]

/-- C10: haversine_distance is symmetric and non-negative for all real
coordinates; consequently the fallback distance and time matrices are
symmetric with zero diagonals, every fallback time entry is the
corresponding distance entry divided by the constant fallback speed, and
that speed is 30 km/h expressed in meters per second. -/
theorem C10_haversine_fallback_matrices (coords : ℕ → ℝ × ℝ)
    (lat1 lon1 lat2 lon2 : ℝ) (i j : ℕ) :
    haversine_distance lat1 lon1 lat2 lon2
        = haversine_distance lat2 lon2 lat1 lon1 ∧
    0 ≤ haversine_distance lat1 lon1 lat2 lon2 ∧
    fallbackDistMatrix coords i j = fallbackDistMatrix coords j i ∧
    fallbackTimeMatrix coords i j = fallbackTimeMatrix coords j i ∧
    fallbackDistMatrix coords i i = 0 ∧
    fallbackTimeMatrix coords i i = 0 ∧
    fallbackTimeMatrix coords i j = fallbackDistMatrix coords i j / speed_mps ∧
    speed_mps = 30 * 1000 / 3600 := by
  have hdist : ∀ a b : ℕ, fallbackDistMatrix coords a b
      = fallbackDistMatrix coords b a := by
    intro a b
    unfold fallbackDistMatrix
    by_cases h : a = b
    · rw [h]
    · rw [if_neg h, if_neg (Ne.symm h), haversine_distance_symm]
  have htime : ∀ a b : ℕ, fallbackTimeMatrix coords a b
      = fallbackDistMatrix coords a b / speed_mps := by
    intro a b
    unfold fallbackTimeMatrix fallbackDistMatrix
    by_cases h : a = b
    · rw [if_pos h, if_pos h, zero_div]
    · rw [if_neg h, if_neg h]
  refine ⟨haversine_distance_symm lat1 lon1 lat2 lon2,
    haversine_distance_nonneg lat1 lon1 lat2 lon2,
    hdist i j, ?_, if_pos rfl, if_pos rfl, htime i j, ?_⟩
  · rw [htime i j, htime j i, hdist i j]
  · unfold speed_mps FALLBACK_SPEED_KMH
    norm_num

end DeliveryOptimizer
